import Mathlib

/-!
Verification of the vessel-provisioning dashboard (src/app.py).

The program is a linear pipeline: load a spreadsheet as a table, filter its
rows by the vendors the user selected, show three summary metrics and a
styled table.  We embed the three columns the code reads (`Vendor`,
`Order_Status`, `ETA`), the filter at lines 59-62, the KPI block at lines
66-77, the row styling at lines 86-90, the fetch/halt control flow at lines
27-32, and (from the spec, since it lives in the streamlit library) the
60-unit memoization of `load_data`.
-/

/-- One row of the spreadsheet, restricted to the three columns the pipeline
reads.  `eta` is an optional timestamp (a `Nat`, e.g. minutes since an epoch);
`none` models a null/NaT cell, which the source data may contain. -/
structure Record where
  vendor : String
  order_status : String
  eta : Option Nat
deriving Repr, DecidableEq

/-- A dataset is the ordered sequence of rows, source order preserved. -/
abbrev Dataset := List Record

/-- Embeds src/app.py lines 59-62: `filtered_df = df[df['Vendor'].isin(selected_vendors)]`
when `selected_vendors` is truthy (non-empty), else `filtered_df = df`. -/
def apply_filter (df : Dataset) (selection : List String) : Dataset :=
  if selection.isEmpty then df
  else df.filter (fun r => selection.contains r.vendor)

/-- Embeds src/app.py line 68: `len(filtered_df)`, shown as Total Vessels. -/
def total_metric (filtered : Dataset) : Nat :=
  filtered.length

/-- Embeds src/app.py line 71:
`len(filtered_df[filtered_df['Order_Status'] == 'Pending'])`. -/
def pending_count (filtered : Dataset) : Nat :=
  (filtered.filter (fun r => r.order_status == "Pending")).length

/-- Embeds `filtered_df['ETA'].min()` (src/app.py line 76): pandas `min`
skips nulls, so it is the minimum of the non-null values, and NaT (`none`)
when every value is null. -/
def etaMin (filtered : Dataset) : Option Nat :=
  (filtered.filterMap Record.eta).min?

/-- The three KPI values of the dashboard.  `earliest_eta` carries the ETA
value that gets displayed (the `strftime` formatting of a real timestamp is
presentation and always succeeds, so we track the value). -/
structure Metrics where
  total : Nat
  pending : Nat
  earliest_eta : Option Nat
deriving Repr, DecidableEq

/-- Embeds src/app.py lines 66-77, the KPI block.  The third column is
guarded only by `if not filtered_df.empty:`; inside the guard it evaluates
`filtered_df['ETA'].min().strftime("%m-%d %H:%M")`.  When the frame is
non-empty but every ETA is null, the min is NaT and `NaT.strftime` raises
`ValueError: NaTType does not support strftime`, which we model with
`Except.error`. -/
def compute_metrics (filtered : Dataset) : Except String Metrics :=
  if filtered.isEmpty then
    Except.ok ⟨total_metric filtered, pending_count filtered, none⟩
  else
    match etaMin filtered with
    | some m => Except.ok ⟨total_metric filtered, pending_count filtered, some m⟩
    | none => Except.error "NaTType does not support strftime"

/-- Embeds the lambda of src/app.py line 88, applied to the `Order_Status`
column: the cell style is the highlight string exactly when the cell equals
"Pending". -/
def cellStyle (x : String) : String :=
  if x == "Pending" then "background-color: #ffcccc; color: red;" else ""

/-- The row-highlight rule as a pure function of a record: the row is flagged
when its `Order_Status` cell received a non-empty style. -/
def rowHighlighted (r : Record) : Bool :=
  cellStyle r.order_status != ""

/-- The observable output of one run of the script: either `st.error` followed
by `st.stop` (nothing after line 32 runs, so no sidebar, metrics or table), or
the full page with the filtered rows, the KPI block and the per-row highlight
flags of the styled table. -/
inductive PipelineOutput where
  | halted (msg : String)
  | page (filtered : Dataset) (metrics : Except String Metrics) (highlights : List Bool)
deriving Repr

/-- Embeds the top-level control flow of src/app.py: lines 27-32 (`try` the
fetch, on any exception `st.error(...)` then `st.stop()`) and lines 57-99
(filter, KPIs, styled table) on success. -/
def runPipeline (fetchResult : Except String Dataset) (selection : List String) :
    PipelineOutput :=
  match fetchResult with
  | Except.error e => PipelineOutput.halted ("❌ 연결 실패: " ++ e)
  | Except.ok df =>
    let filtered := apply_filter df selection
    PipelineOutput.page filtered (compute_metrics filtered) (filtered.map rowHighlighted)

/-- Modelled from the spec: the memo state of `st.cache_data(ttl=60)` on
`load_data` (src/app.py line 18) lives inside the streamlit library, not in
this repository.  The spec describes it as a single cache entry holding the
fetched value and its fetch time, valid for a 60-time-unit staleness window. -/
structure CacheState where
  cached : Option (Nat × Dataset)
deriving Repr, DecidableEq

/-- The staleness window: `ttl=60` at src/app.py line 18. -/
def ttlWindow : Nat := 60

/-- Modelled from the spec: `load()` under the `st.cache_data(ttl=60)`
memoization.  Within the staleness window it returns the cached dataset
without contacting the source; otherwise it performs the external fetch
(`conn.read()`, src/app.py line 24) and stores the result.  The `Bool`
records whether an external fetch occurred on this call. -/
def load (fetch : Nat → Dataset) (now : Nat) (s : CacheState) :
    Dataset × CacheState × Bool :=
  match s.cached with
  | some (t, d) =>
    if now - t < ttlWindow then (d, s, false)
    else
      let d2 := fetch now
      (d2, ⟨some (now, d2)⟩, true)
  | none =>
    let d2 := fetch now
    (d2, ⟨some (now, d2)⟩, true)

/-- A small concrete dataset (the spec's worked example: vendor A pending
with the later ETA, vendor B done with the earlier ETA), used by witnesses. -/
def demoD : Dataset :=
  [⟨"A", "Pending", some 100⟩, ⟨"B", "Done", some 90⟩]

/-- C1: the claim says metric computation never fails when all ETA values are
null.  The code violates it: on a non-empty filtered frame whose ETAs are all
null, `filtered_df['ETA'].min()` is NaT and `NaT.strftime` raises, so the KPI
block fails instead of omitting the Earliest ETA display. -/
theorem compute_metrics_all_null_eta_fails :
    compute_metrics [⟨"A", "Done", none⟩] =
      Except.error "NaTType does not support strftime" := by
  rfl

/-- C3: filtering with the empty selection returns the dataset unchanged
(empty selection is show-all, not filter-to-nothing). -/
theorem apply_filter_empty_selection (D : Dataset) : apply_filter D [] = D := by
  simp [apply_filter]

/-- C5: the Total Vessels metric is the length of the filtered dataset, and
the Pending Orders metric never exceeds it. -/
theorem total_and_pending_bounds (D : Dataset) :
    total_metric D = D.length ∧ pending_count D ≤ total_metric D := by
  refine ⟨rfl, ?_⟩
  simpa [total_metric, pending_count] using
    List.length_filter_le (fun r => r.order_status == "Pending") D

/-- C6: the Pending Orders metric counts exactly the records whose
`order_status` is the string "Pending" under exact (case-sensitive) string
equality. -/
theorem pending_count_exact_match (D : Dataset) :
    pending_count D =
      (D.filter (fun r => decide (r.order_status = "Pending"))).length := by
  unfold pending_count
  congr 1


/-- C2: with a non-empty selection, the filter keeps exactly the records of
the dataset whose vendor is a member of the selection, in the original row
order; and for every selection (the third binder, which may be empty) the
result is a subsequence of the dataset. -/
theorem apply_filter_keeps_selected (D : Dataset) (S T : List String) (h : S ≠ []) :
    apply_filter D S = D.filter (fun r => decide (r.vendor ∈ S)) ∧
    (apply_filter D T).Sublist D := by
  constructor
  · unfold apply_filter
    rw [if_neg (by simp [List.isEmpty_iff, h])]
    exact List.filter_congr fun r _ => by simp [List.contains, List.elem_eq_mem]
  · unfold apply_filter
    by_cases ht : T.isEmpty
    · simp [ht]
    · rw [if_neg ht]
      exact List.filter_sublist D

/-- C2 witness: the filter and the subsequence property evaluated on the
spec's worked example with selection consisting of vendor A. -/
theorem apply_filter_keeps_selected_witness :
    apply_filter demoD ["A"] = demoD.filter (fun r => decide (r.vendor ∈ ["A"])) ∧
    (apply_filter demoD []).Sublist demoD :=
  apply_filter_keeps_selected demoD ["A"] [] (by decide)

/-- C4: on the empty filtered dataset the KPI block reports zero totals and
no earliest ETA; on a filtered dataset with at least one non-null ETA, the
Earliest ETA metric is displayed and equals the minimum of the non-null ETA
values of the filtered records. -/
theorem earliest_eta_spec (D : Dataset) (h : D.filterMap Record.eta ≠ []) :
    compute_metrics [] = Except.ok ⟨0, 0, none⟩ ∧
    compute_metrics D = Except.ok ⟨total_metric D, pending_count D, etaMin D⟩ ∧
    ∃ m, etaMin D = some m ∧ m ∈ D.filterMap Record.eta ∧
      ∀ x ∈ D.filterMap Record.eta, m ≤ x := by
  have hD : ¬ D.isEmpty := by
    cases D with
    | nil => simp at h
    | cons a l => simp
  obtain ⟨m, hm⟩ : ∃ m, etaMin D = some m := by
    unfold etaMin
    cases hE : (D.filterMap Record.eta).min? with
    | none => exact absurd (List.min?_eq_none_iff.mp hE) h
    | some m => exact ⟨m, rfl⟩
  have hchar := List.min?_eq_some_iff'.mp (by simpa [etaMin] using hm)
  refine ⟨rfl, ?_, m, hm, hchar.1, fun x hx => hchar.2 x hx⟩
  unfold compute_metrics
  rw [if_neg hD, hm]

/-- C4 witness: the KPI block evaluated on the spec's worked example, where
the minimum ETA is the second row's 90. -/
theorem earliest_eta_spec_witness :
    compute_metrics [] = Except.ok ⟨0, 0, none⟩ ∧
    compute_metrics demoD =
      Except.ok ⟨total_metric demoD, pending_count demoD, etaMin demoD⟩ ∧
    ∃ m, etaMin demoD = some m ∧ m ∈ demoD.filterMap Record.eta ∧
      ∀ x ∈ demoD.filterMap Record.eta, m ≤ x :=
  earliest_eta_spec demoD (by decide)

/-- C7: if a call of `load` at time t0 performed the external fetch, then a
second call within the 60-unit staleness window returns the same dataset,
leaves the cache unchanged and performs no second external fetch. -/
theorem load_idempotent_within_ttl (fetch : Nat → Dataset) (t0 t1 : Nat)
    (s0 : CacheState) (hfetch : (load fetch t0 s0).2.2 = true)
    (hw : t1 - t0 < ttlWindow) :
    load fetch t1 (load fetch t0 s0).2.1 =
      ((load fetch t0 s0).1, (load fetch t0 s0).2.1, false) := by
  obtain ⟨cached⟩ := s0
  cases cached with
  | none => simp [load, hw]
  | some td =>
    obtain ⟨t, d⟩ := td
    by_cases hc : t0 - t < ttlWindow
    · simp [load, hc] at hfetch
    · simp [load, hc, hw]

/-- C7 witness: a cold cache fetched at time 0 and read again at time 30
returns the same dataset with no second fetch. -/
theorem load_idempotent_within_ttl_witness :
    load (fun _ => demoD) 30 (load (fun _ => demoD) 0 ⟨none⟩).2.1 =
      ((load (fun _ => demoD) 0 ⟨none⟩).1, (load (fun _ => demoD) 0 ⟨none⟩).2.1,
        false) :=
  load_idempotent_within_ttl (fun _ => demoD) 0 30 ⟨none⟩ rfl (by decide)

/-- C8: when the external fetch fails, the run surfaces the visible failure
message and halts: the output is the `halted` form carrying the message, so
no filter controls, metrics or table are rendered. -/
theorem fetch_failure_halts (e : String) (sel : List String) :
    runPipeline (Except.error e) sel =
      PipelineOutput.halted ("❌ 연결 실패: " ++ e) := rfl

/-- C9: a row of the rendered table is visually flagged exactly when its
`order_status` equals "Pending", and the successful pipeline emits one such
highlight flag per filtered record. -/
theorem row_highlighted_iff_pending (r : Record) (df : Dataset) (sel : List String) :
    (rowHighlighted r = true ↔ r.order_status = "Pending") ∧
    runPipeline (Except.ok df) sel =
      PipelineOutput.page (apply_filter df sel)
        (compute_metrics (apply_filter df sel))
        ((apply_filter df sel).map rowHighlighted) := by
  refine ⟨?_, rfl⟩
  unfold rowHighlighted cellStyle
  by_cases h : r.order_status = "Pending" <;> simp [h]

/-- C10: the vendor filter is idempotent: filtering an already-filtered
dataset with the same selection changes nothing. -/
theorem apply_filter_idempotent (D : Dataset) (S : List String) :
    apply_filter (apply_filter D S) S = apply_filter D S := by
  by_cases h : S.isEmpty
  · simp [apply_filter, h]
  · simp [apply_filter, h, List.filter_filter]
